import Mathlib

/-!
Shallow embedding of the subscription-state engine, Stripe webhook adapter
and diagnostic conversation of `coach_sommeil_bot.py`.

Conventions of the embedding:
  * Time is an `Int` number of seconds; `datetime.now()` becomes an explicit
    `now : Int` argument to every function that reads the clock, and
    `timedelta(days := d)` becomes `d * 86400`.
  * The Postgres store becomes a `DB`: an association list from `user_id`
    to the row of the `users` table, plus an `avail` flag modelling whether
    `get_db_connection()` succeeds (it returns `None` on failure, and every
    caller treats that as a no-op failure).
  * Functions that may write to the store return `DB × result`.
  * Python truthiness of the optional `stripe_customer_id` argument and of
    `client_reference_id` (where `None` and `""` are falsy) is modelled by
    `pyTruthyStr`; Python's `int(...)` (raising `ValueError` on bad input)
    is modelled by `pyInt : String → Option Int`.
-/

namespace CoachSommeil

/-- A row of the `users` table created by `init_database`. -/
structure UserRecord where
  username : Option String := none
  first_name : Option String := none
  is_premium : Bool := false
  subscription_until : Option Int := none
  stripe_customer_id : Option String := none
  created_at : Int := 0
  last_activity : Int := 0
deriving Repr, DecidableEq

/-- The database state: the `users` table as an association list keyed by
`user_id`, and whether `get_db_connection()` currently succeeds. -/
structure DB where
  avail : Bool
  users : List (Int × UserRecord)
deriving Repr, DecidableEq

/-- `SELECT * FROM users WHERE user_id = %s` followed by `fetchone()`:
first row whose key matches. -/
def findUser : List (Int × UserRecord) → Int → Option UserRecord
  | [], _ => none
  | (k, r) :: rest, uid => if k = uid then some r else findUser rest uid

/-- `UPDATE users SET ... WHERE user_id = %s`: applies `f` to every row whose
key matches (the primary key makes it at most one in practice). -/
def updateUser : List (Int × UserRecord) → Int → (UserRecord → UserRecord) →
    List (Int × UserRecord)
  | [], _, _ => []
  | (k, r) :: rest, uid, f =>
      if k = uid then (k, f r) :: updateUser rest uid f
      else (k, r) :: updateUser rest uid f

/-- `SELECT user_id FROM users WHERE stripe_customer_id = %s` + `fetchone()`.
A SQL `= NULL` comparison matches nothing, so a `none` customer id finds
no row (the caller only reaches this with a concrete string). -/
def findUserByCustomerId : List (Int × UserRecord) → String → Option Int
  | [], _ => none
  | (k, r) :: rest, cid =>
      if r.stripe_customer_id = some cid then some k
      else findUserByCustomerId rest cid

/-- Python truthiness of an optional string: `None` and `""` are falsy. -/
def pyTruthyStr : Option String → Bool
  | none => false
  | some s => s ≠ ""

/-- Numeric value of a list of decimal digits. -/
def natOfDigits (cs : List Char) : Nat :=
  cs.foldl (fun a c => 10 * a + (c.toNat - 48)) 0

/-- Model of Python `int(s)`: strips surrounding spaces, accepts an optional
sign followed by one or more digits, and returns `none` where `int` raises
`ValueError`. -/
def pyInt (s : String) : Option Int :=
  let cs := ((s.toList.dropWhile (· = ' ')).reverse.dropWhile (· = ' ')).reverse
  match cs with
  | '-' :: rest =>
      if rest ≠ [] ∧ rest.all Char.isDigit then some (-(natOfDigits rest : Int))
      else none
  | '+' :: rest =>
      if rest ≠ [] ∧ rest.all Char.isDigit then some (natOfDigits rest : Int)
      else none
  | rest =>
      if rest ≠ [] ∧ rest.all Char.isDigit then some (natOfDigits rest : Int)
      else none

/-- `get_user_data(user_id)`: returns `None` both when the connection fails
and when no row exists. -/
def get_user_data (db : DB) (uid : Int) : Option UserRecord :=
  if db.avail then findUser db.users uid else none

/-- `deactivate_premium(user_id)`:
`UPDATE users SET is_premium = FALSE WHERE user_id = %s`.
Returns `False` exactly when the connection cannot be obtained. -/
def deactivate_premium (db : DB) (uid : Int) : DB × Bool :=
  if db.avail then
    let users := updateUser db.users uid (fun r => { r with is_premium := false })
    ({ db with users := users }, true)
  else (db, false)

/-- `activate_premium(user_id, months, stripe_customer_id)`: sets
`is_premium = TRUE` and `subscription_until = now + 30*months days`,
also storing the customer id when a truthy one is supplied. -/
def activate_premium (now : Int) (db : DB) (uid : Int) (months : Int)
    (stripe_customer_id : Option String) : DB × Bool :=
  if db.avail then
    let expiry := now + 30 * months * 86400
    if pyTruthyStr stripe_customer_id then
      let users := updateUser db.users uid (fun r =>
        { r with is_premium := true, subscription_until := some expiry,
                 stripe_customer_id := stripe_customer_id })
      ({ db with users := users }, true)
    else
      let users := updateUser db.users uid (fun r =>
        { r with is_premium := true, subscription_until := some expiry })
      ({ db with users := users }, true)
  else (db, false)

/-- `is_premium(user_id)`: lazy-expiry check. Fetches the record; absent or
flag false gives `false`; an expired `subscription_until` triggers
`deactivate_premium` (side effect) and gives `false`; otherwise `true`. -/
def is_premium (now : Int) (db : DB) (uid : Int) : DB × Bool :=
  match get_user_data db uid with
  | none => (db, false)
  | some user =>
    if user.is_premium = false then (db, false)
    else
      match user.subscription_until with
      | some u => if u < now then ((deactivate_premium db uid).1, false)
                  else (db, true)
      | none => (db, true)

/-- `create_or_update_user(user_id, username, first_name)`: `SELECT` to test
existence, then either `UPDATE last_activity` or `INSERT` a fresh row
(whose other columns take the table defaults). -/
def create_or_update_user (now : Int) (db : DB) (uid : Int)
    (username first_name : Option String) : DB × Bool :=
  if db.avail then
    match findUser db.users uid with
    | some _ =>
        let users := updateUser db.users uid (fun r => { r with last_activity := now })
        ({ db with users := users }, true)
    | none =>
        let row : UserRecord :=
          { username := username, first_name := first_name,
            is_premium := false, subscription_until := none,
            stripe_customer_id := none, created_at := now, last_activity := now }
        ({ db with users := db.users ++ [(uid, row)] }, true)
  else (db, false)

/-! ### Stripe webhook adapter (`stripe_webhook`) -/

/-- A Stripe event as consumed by `stripe_webhook` after
`stripe.Webhook.construct_event` succeeded: the event `type` together with
the fields the handler reads from `event['data']['object']`. -/
inductive StripeEvent where
  | checkoutSessionCompleted (client_reference_id : Option String)
      (customer : Option String)
  | invoicePaymentSucceeded (customer : Option String)
  | customerSubscriptionDeleted (customer : Option String)
  | otherEvent (kind : String)
deriving Repr, DecidableEq

/-- An inbound webhook request, classified by what
`stripe.Webhook.construct_event` does with it: raises
`SignatureVerificationError`, raises some other parse error, or yields an
event. -/
inductive WebhookRequest where
  | badSignature
  | malformedPayload
  | valid (ev : StripeEvent)
deriving Repr, DecidableEq

/-- `stripe_webhook(request)`: returns the new database state and the HTTP
status code. A `ValueError` from `int(client_reference_id)` propagates to
the outer `except`, which answers 400. The `invoice.payment_succeeded` and
`customer.subscription.deleted` branches run `conn.cursor()` and an inline
`cursor.execute(SELECT ...)` with no inner `try`: `sqlError` models a
psycopg2 exception raised by that inline query after `get_db_connection()`
succeeded — it, too, reaches the outer `except` and answers 400, leaving
the store unmodified. The checkout branch and the store helpers it calls
catch their own storage exceptions, so `sqlError` cannot reach the outer
handler from them. -/
def stripe_webhook (now : Int) (db : DB) (sqlError : Bool)
    (req : WebhookRequest) : DB × Nat :=
  match req with
  | .badSignature => (db, 400)
  | .malformedPayload => (db, 400)
  | .valid ev =>
    match ev with
    | .checkoutSessionCompleted clientRef customer =>
        if pyTruthyStr clientRef then
          match clientRef with
          | some s =>
              match pyInt s with
              | some uid => ((activate_premium now db uid 1 customer).1, 200)
              | none => (db, 400)
          | none => (db, 200)
        else (db, 200)
    | .invoicePaymentSucceeded customer =>
        if db.avail then
          if sqlError then (db, 400)
          else
            match customer with
            | none => (db, 200)
            | some cid =>
                match findUserByCustomerId db.users cid with
                | some uid => ((activate_premium now db uid 1 none).1, 200)
                | none => (db, 200)
        else (db, 200)
    | .customerSubscriptionDeleted customer =>
        if db.avail then
          if sqlError then (db, 400)
          else
            match customer with
            | none => (db, 200)
            | some cid =>
                match findUserByCustomerId db.users cid with
                | some uid => ((deactivate_premium db uid).1, 200)
                | none => (db, 200)
        else (db, 200)
    | .otherEvent _ => (db, 200)

/-- `premium_callback`: the inline-button handler. The `activate_premium_demo`
callback data activates premium for the pressing user; any other data does
nothing. No signature or payment check guards this path. -/
def premium_callback (now : Int) (db : DB) (uid : Int) (dat : String) : DB :=
  if dat = "activate_premium_demo" then (activate_premium now db uid 1 none).1
  else db

/-- The two concurrent entry points that can reach the entitlement engine
with externally supplied input: the Stripe webhook endpoint and a Telegram
callback query. -/
inductive SysInput where
  | webhook (req : WebhookRequest)
  | callback (uid : Int) (dat : String)
deriving Repr, DecidableEq

/-- One admission of an external input into the system; `sqlError` is the
webhook's mid-handling storage-exception knob (unused by the callback
path, which issues no inline query). -/
def sysStep (now : Int) (db : DB) (sqlError : Bool) (i : SysInput) : DB :=
  match i with
  | .webhook req => (stripe_webhook now db sqlError req).1
  | .callback uid dat => premium_callback now db uid dat

/-- Whether the input passed signature verification: only a webhook request
for which `construct_event` succeeded did; a Telegram callback query never
goes through `verify`. -/
def verifiedInput : SysInput → Bool
  | .webhook (.valid _) => true
  | _ => false

/-- Whether an admission changed the stored entitlement data. -/
def entitlementMutated (db db' : DB) : Bool := db.users ≠ db'.users

/-! ### Diagnostic conversation (`/diagnostic`) -/

/-- The conversation states `AGE, SIESTES, COUCHER, REVEILS = range(4)`.
`ConversationHandler.END` is modelled by dropping the session
(`Option ConvState = none`). -/
inductive Stage where
  | AGE | SIESTES | COUCHER | REVEILS
deriving Repr, DecidableEq

/-- The `diagnostic_*` entries of `context.user_data`, filled progressively. -/
structure SessionData where
  diagnostic_age : Option Int := none
  diagnostic_siestes : Option Int := none
  diagnostic_coucher : Option String := none
deriving Repr, DecidableEq

/-- A live `/diagnostic` conversation: current state plus collected data. -/
structure ConvState where
  stage : Stage
  dat : SessionData
deriving Repr, DecidableEq

/-- `siestes_ideal = 4 if age <= 3 else 3 if age <= 6 else 2 if age <= 12 else 1`. -/
def siestes_ideal (age : Int) : Int :=
  if age ≤ 3 then 4 else if age ≤ 6 then 3 else if age ≤ 12 then 2 else 1

/-- The nap-analysis line appended by `diagnostic_reveils`. -/
def napLine (siestes ideal : Int) : String :=
  if siestes > ideal then "\n⚠️ Trop de siestes. Idéal : " ++ toString ideal
  else if siestes < ideal then "\n💤 Besoin de plus de repos. Idéal : " ++ toString ideal
  else "\n✅ Nombre de siestes adapté"

/-- The night-waking analysis lines appended by `diagnostic_reveils`. -/
def wakeLine (reveils : Int) : String :=
  if reveils > 3 then
    "\n\n🌙 Réveils fréquents. Causes possibles :" ++
    "\n• Fenêtre de sommeil inadaptée" ++ "\n• Coucher trop tardif"
  else if reveils > 0 then "\n\n🌙 Quelques réveils normaux, optimisables"
  else "\n\n✨ Excellent ! Bébé dort bien"

/-- The header of the diagnostic result (the `Situation` block). -/
def resultHeader (age siestes : Int) (coucher : String) (reveils : Int) : String :=
  "\n✅ **Résultat du Diagnostic**\n\n📋 **Situation :**" ++
  "\n- Âge : " ++ toString age ++ " mois" ++
  "\n- Siestes : " ++ toString siestes ++ "/jour" ++
  "\n- Coucher : " ++ coucher ++
  "\n- Réveils : " ++ toString reveils ++ "/nuit" ++
  "\n\n🔍 **Analyse :**\n"

/-- The fixed recommendations block of the diagnostic result. -/
def recoFooter (age : Int) : String :=
  "\n\n💡 **Recommandations :**" ++
  "\n→ /routine " ++ toString age ++ " - Routine idéale" ++
  "\n→ /siestes " ++ toString age ++ " - Horaires optimaux" ++
  "\n→ /coucher - Routine du soir"

/-- The upsell notice appended for non-premium users. -/
def upsellText : String :=
  "\n\n✨ **Premium : diagnostic illimité + plan détaillé**" ++ "\n→ /premium"

/-- The diagnostic result text as assembled by `diagnostic_reveils`, before
the premium check. A pure function of the four collected fields. -/
def buildResult (age siestes : Int) (coucher : String) (reveils : Int) : String :=
  resultHeader age siestes coucher reveils ++
  napLine siestes (siestes_ideal age) ++ wakeLine reveils ++ recoFooter age

/-- A message arriving while the conversation is active: plain text (the
`filters.TEXT & ~filters.COMMAND` handlers) or the `/cancel` fallback. -/
inductive ConvMsg where
  | text (s : String)
  | cancelCmd
deriving Repr, DecidableEq

/-- What the bot replies with during one conversation step. -/
inductive ConvReply where
  | askNaps
  | askBedtime
  | askWakes
  | invalidNumber
  | finalResult (s : String)
  | cancelledNotice
  | errorReply
deriving Repr, DecidableEq

/-- One step of the `/diagnostic` `ConversationHandler`: dispatches the
message to `diagnostic_age` / `diagnostic_siestes` / `diagnostic_coucher` /
`diagnostic_reveils` according to the current state, or to
`diagnostic_cancel` for the `/cancel` fallback. Returns the database (only
`diagnostic_reveils` touches it, through `is_premium`), the surviving
session (`none` on `END`), and the reply. The `errorReply` arm models the
`KeyError` path where a collected field is unexpectedly missing: the
exception reaches `error_handler` and the conversation state is unchanged. -/
def convStep (now : Int) (db : DB) (uid : Int) (cs : ConvState) (m : ConvMsg) :
    DB × Option ConvState × ConvReply :=
  match m with
  | .cancelCmd => (db, none, .cancelledNotice)
  | .text s =>
    match cs.stage with
    | .AGE =>
        match pyInt s with
        | some a =>
            (db, some ⟨.SIESTES, { cs.dat with diagnostic_age := some a }⟩, .askNaps)
        | none => (db, some cs, .invalidNumber)
    | .SIESTES =>
        match pyInt s with
        | some si =>
            (db, some ⟨.COUCHER, { cs.dat with diagnostic_siestes := some si }⟩,
             .askBedtime)
        | none => (db, some cs, .invalidNumber)
    | .COUCHER =>
        (db, some ⟨.REVEILS, { cs.dat with diagnostic_coucher := some s }⟩, .askWakes)
    | .REVEILS =>
        match pyInt s with
        | none => (db, some cs, .invalidNumber)
        | some reveils =>
            match cs.dat.diagnostic_age, cs.dat.diagnostic_siestes,
                  cs.dat.diagnostic_coucher with
            | some age, some siestes, some coucher =>
                let pr := is_premium now db uid
                (pr.1, none,
                 .finalResult (buildResult age siestes coucher reveils ++
                   (if pr.2 then "" else upsellText)))
            | _, _, _ => (db, some cs, .errorReply)

/-! ### Storage-layer command trace of `create_or_update_user` -/

/-- A single SQL command issued against the store. -/
inductive SqlCmd where
  | selectUserById (uid : Int)
  | updateLastActivity (uid : Int)
  | insertUser (uid : Int) (username first_name : Option String)
deriving Repr, DecidableEq

/-- Whether a command only reads. -/
def isReadCmd : SqlCmd → Bool
  | .selectUserById _ => true
  | _ => false

/-- The sequence of SQL commands `create_or_update_user` issues when the
connection is available: a `SELECT` probe followed by either an `UPDATE`
or an `INSERT`. -/
def create_or_update_user_trace (db : DB) (uid : Int)
    (username first_name : Option String) : List SqlCmd :=
  if db.avail then
    match findUser db.users uid with
    | some _ => [.selectUserById uid, .updateLastActivity uid]
    | none => [.selectUserById uid, .insertUser uid username first_name]
  else []

/-- The read phase of `create_or_update_user`: the existence probe. -/
def upsert_read (db : DB) (uid : Int) : Bool := (findUser db.users uid).isSome

/-- The write phase of `create_or_update_user`, parameterised by the result
`seen` of an earlier read phase. An `INSERT` whose key meanwhile appeared
hits the `user_id` primary-key constraint; psycopg2 raises, the `except`
arm returns `False` and nothing is committed. -/
def upsert_write (now : Int) (db : DB) (uid : Int)
    (username first_name : Option String) (seen : Bool) : DB × Bool :=
  if db.avail then
    if seen then
      let users := updateUser db.users uid (fun r => { r with last_activity := now })
      ({ db with users := users }, true)
    else
      match findUser db.users uid with
      | some _ => (db, false)
      | none =>
          let row : UserRecord :=
            { username := username, first_name := first_name,
              is_premium := false, subscription_until := none,
              stripe_customer_id := none, created_at := now, last_activity := now }
          ({ db with users := db.users ++ [(uid, row)] }, true)
  else (db, false)

/-! ### Helper lemmas about the store -/

theorem findUser_updateUser_self (users : List (Int × UserRecord)) (uid : Int)
    (f : UserRecord → UserRecord) :
    findUser (updateUser users uid f) uid = (findUser users uid).map f := by
  induction users with
  | nil => rfl
  | cons p rest ih =>
      obtain ⟨k, r⟩ := p
      by_cases h : k = uid
      · subst h; simp [updateUser, findUser]
      · simp [updateUser, findUser, h, ih]

theorem findUser_updateUser_ne (users : List (Int × UserRecord)) (uid uid' : Int)
    (f : UserRecord → UserRecord) (h : uid' ≠ uid) :
    findUser (updateUser users uid f) uid' = findUser users uid' := by
  induction users with
  | nil => rfl
  | cons p rest ih =>
      obtain ⟨k, r⟩ := p
      by_cases hk : k = uid
      · subst hk
        simp [updateUser, findUser, Ne.symm h, ih]
      · by_cases hk' : k = uid'
        · subst hk'; simp [updateUser, findUser, hk]
        · simp [updateUser, findUser, hk, hk', ih]

theorem updateUser_not_found (users : List (Int × UserRecord)) (uid : Int)
    (f : UserRecord → UserRecord) (h : findUser users uid = none) :
    updateUser users uid f = users := by
  induction users with
  | nil => rfl
  | cons p rest ih =>
      obtain ⟨k, r⟩ := p
      by_cases hk : k = uid
      · subst hk; simp [findUser] at h
      · simp [findUser, hk] at h
        simp [updateUser, hk, ih h]

theorem updateUser_comp (users : List (Int × UserRecord)) (uid : Int)
    (f g : UserRecord → UserRecord) :
    updateUser (updateUser users uid f) uid g =
      updateUser users uid (fun r => g (f r)) := by
  induction users with
  | nil => rfl
  | cons p rest ih =>
      obtain ⟨k, r⟩ := p
      by_cases hk : k = uid
      · subst hk; simp [updateUser, ih]
      · simp [updateUser, hk, ih]

theorem findUserByCustomerId_updateUser (users : List (Int × UserRecord))
    (uid : Int) (f : UserRecord → UserRecord) (cid : String)
    (hf : ∀ r, (f r).stripe_customer_id = r.stripe_customer_id) :
    findUserByCustomerId (updateUser users uid f) cid =
      findUserByCustomerId users cid := by
  induction users with
  | nil => rfl
  | cons p rest ih =>
      obtain ⟨k, r⟩ := p
      by_cases hk : k = uid
      · subst hk; simp [updateUser, findUserByCustomerId, hf, ih]
      · simp [updateUser, findUserByCustomerId, hk, hf, ih]

theorem findUser_append_self (users : List (Int × UserRecord)) (uid : Int)
    (row : UserRecord) (h : findUser users uid = none) :
    findUser (users ++ [(uid, row)]) uid = some row := by
  induction users with
  | nil => simp [findUser]
  | cons p rest ih =>
      obtain ⟨k, r⟩ := p
      by_cases hk : k = uid
      · subst hk; simp [findUser] at h
      · simp [findUser, hk] at h ⊢; exact ih h

theorem activate_premium_found (now : Int) (db : DB) (uid : Int) (months : Int)
    (cid : Option String) (r : UserRecord) (hav : db.avail = true)
    (hfind : findUser db.users uid = some r) :
    (activate_premium now db uid months cid).1.avail = true ∧
    findUser (activate_premium now db uid months cid).1.users uid =
      some { r with is_premium := true,
                    subscription_until := some (now + 30 * months * 86400),
                    stripe_customer_id :=
                      if pyTruthyStr cid then cid else r.stripe_customer_id } := by
  by_cases hc : pyTruthyStr cid <;>
    simp [activate_premium, hav, hc, findUser_updateUser_self, hfind]

/-- Whether the lazy-expiry branch of `is_premium` fires: the record exists,
its flag is set, and its `subscription_until` is strictly in the past. -/
def expiredPremium (now : Int) (db : DB) (uid : Int) : Bool :=
  match get_user_data db uid with
  | none => false
  | some r =>
      r.is_premium &&
        (match r.subscription_until with
         | some u => u < now
         | none => false)

theorem is_premium_eq_of_until (t : Int) (db : DB) (uid : Int)
    (rec : UserRecord) (u : Int) (hav : db.avail = true)
    (hfind : findUser db.users uid = some rec) (hp : rec.is_premium = true)
    (hu : rec.subscription_until = some u) :
    is_premium t db uid =
      if u < t then ((deactivate_premium db uid).1, false) else (db, true) := by
  simp [is_premium, get_user_data, hav, hfind, hp, hu]

theorem is_premium_fst (now : Int) (db : DB) (uid : Int) :
    (is_premium now db uid).1 =
      if expiredPremium now db uid then (deactivate_premium db uid).1 else db := by
  unfold is_premium expiredPremium
  cases h : get_user_data db uid with
  | none => simp
  | some r =>
      cases hp : r.is_premium with
      | false => simp [hp]
      | true =>
          cases hu : r.subscription_until with
          | none => simp [hp, hu]
          | some u => by_cases hlt : u < now <;> simp [hp, hu, hlt]

/-! ### Claim theorems -/

/-- C1: `is_premium` follows the lazy-expiry algorithm — an absent record or
a false flag gives `false`; a true flag with an expired `subscription_until`
calls `deactivate_premium` (side effect) and gives `false`; otherwise it
gives `true`. Consequently, after `activate_premium u months` at time `now`
on a stored record with the store reachable, `is_premium u` is `true` at
any time strictly before `now + 30*months` days and `false` at any time
strictly after it. -/
theorem C1_is_premium_lazy_expiry :
    (∀ now db uid, get_user_data db uid = none →
        is_premium now db uid = (db, false)) ∧
    (∀ now db uid r, get_user_data db uid = some r → r.is_premium = false →
        is_premium now db uid = (db, false)) ∧
    (∀ now db uid r u, get_user_data db uid = some r → r.is_premium = true →
        r.subscription_until = some u → u < now →
        is_premium now db uid = ((deactivate_premium db uid).1, false)) ∧
    (∀ now db uid r u, get_user_data db uid = some r → r.is_premium = true →
        r.subscription_until = some u → now ≤ u →
        is_premium now db uid = (db, true)) ∧
    (∀ now db uid r, get_user_data db uid = some r → r.is_premium = true →
        r.subscription_until = none → is_premium now db uid = (db, true)) ∧
    (∀ now t db uid months cid r, db.avail = true →
        findUser db.users uid = some r →
        ((t < now + 30 * months * 86400 →
            (is_premium t (activate_premium now db uid months cid).1 uid).2 = true) ∧
         (now + 30 * months * 86400 < t →
            (is_premium t (activate_premium now db uid months cid).1 uid).2 = false))) := by
  refine ⟨?_, ?_, ?_, ?_, ?_, ?_⟩
  · intro now db uid h; simp [is_premium, h]
  · intro now db uid r h hf; simp [is_premium, h, hf]
  · intro now db uid r u h hf hu hlt; simp [is_premium, h, hf, hu, hlt]
  · intro now db uid r u h hf hu hle
    simp [is_premium, h, hf, hu, not_lt.mpr hle]
  · intro now db uid r h hf hu; simp [is_premium, h, hf, hu]
  · intro now t db uid months cid r hav hfind
    obtain ⟨hav', hfind'⟩ := activate_premium_found now db uid months cid r hav hfind
    have hiseq := is_premium_eq_of_until t _ uid _ (now + 30 * months * 86400)
      hav' hfind' rfl rfl
    constructor <;> intro ht
    · rw [hiseq, if_neg (lt_asymm ht)]
    · rw [hiseq, if_pos ht]

/-- C1 witness: a concrete instantiation of every conjunct of
`C1_is_premium_lazy_expiry`, on a one-user store. -/
theorem C1_is_premium_lazy_expiry_witness :
    is_premium 0 (⟨true, []⟩ : DB) 1 = ((⟨true, []⟩ : DB), false) ∧
    is_premium 0 (⟨true, [(1, {})]⟩ : DB) 1 = ((⟨true, [(1, {})]⟩ : DB), false) ∧
    is_premium 9
        (⟨true, [(1, { is_premium := true, subscription_until := some 5 })]⟩ : DB) 1 =
      ((deactivate_premium
          (⟨true, [(1, { is_premium := true, subscription_until := some 5 })]⟩ : DB) 1).1,
        false) ∧
    is_premium 3
        (⟨true, [(1, { is_premium := true, subscription_until := some 5 })]⟩ : DB) 1 =
      ((⟨true, [(1, { is_premium := true, subscription_until := some 5 })]⟩ : DB), true) ∧
    is_premium 3 (⟨true, [(1, { is_premium := true })]⟩ : DB) 1 =
      ((⟨true, [(1, { is_premium := true })]⟩ : DB), true) ∧
    (is_premium (30 * 86400 - 1)
        (activate_premium 0 (⟨true, [(1, {})]⟩ : DB) 1 1 none).1 1).2 = true ∧
    (is_premium (30 * 86400 + 1)
        (activate_premium 0 (⟨true, [(1, {})]⟩ : DB) 1 1 none).1 1).2 = false := by
  obtain ⟨h1, h2, h3, h4, h5, h6⟩ := C1_is_premium_lazy_expiry
  exact ⟨h1 0 (⟨true, []⟩ : DB) 1 (by decide),
         h2 0 (⟨true, [(1, {})]⟩ : DB) 1 {} (by decide) (by decide),
         h3 9 (⟨true, [(1, { is_premium := true, subscription_until := some 5 })]⟩ : DB)
           1 { is_premium := true, subscription_until := some 5 } 5
           (by decide) (by decide) (by decide) (by decide),
         h4 3 (⟨true, [(1, { is_premium := true, subscription_until := some 5 })]⟩ : DB)
           1 { is_premium := true, subscription_until := some 5 } 5
           (by decide) (by decide) (by decide) (by decide),
         h5 3 (⟨true, [(1, { is_premium := true })]⟩ : DB)
           1 { is_premium := true } (by decide) (by decide) (by decide),
         (h6 0 (30 * 86400 - 1) (⟨true, [(1, {})]⟩ : DB) 1 1 none {}
           (by decide) (by decide)).1 (by decide),
         (h6 0 (30 * 86400 + 1) (⟨true, [(1, {})]⟩ : DB) 1 1 none {}
           (by decide) (by decide)).2 (by decide)⟩

/-- C2: `activate_premium` always overwrites `subscription_until` with
`now + 30*months` days, discarding any remaining time; in particular a
second one-month activation ten days after a first one expires 40 days
after the first activation, not 60. -/
theorem C2_activate_overwrites :
    (∀ now db uid months cid r, db.avail = true →
        findUser db.users uid = some r →
        findUser (activate_premium now db uid months cid).1.users uid =
          some { r with is_premium := true,
                        subscription_until := some (now + 30 * months * 86400),
                        stripe_customer_id :=
                          if pyTruthyStr cid then cid
                          else r.stripe_customer_id }) ∧
    (∀ T db uid r, db.avail = true → findUser db.users uid = some r →
        (findUser (activate_premium (T + 10 * 86400)
              (activate_premium T db uid 1 none).1 uid 1 none).1.users uid).map
            (fun r => r.subscription_until) =
          some (some (T + 10 * 86400 + 30 * 1 * 86400)) ∧
        T + 10 * 86400 + 30 * 1 * 86400 ≠ T + 30 * 86400 + 30 * 86400) := by
  constructor
  · intro now db uid months cid r hav hfind
    exact (activate_premium_found now db uid months cid r hav hfind).2
  · intro T db uid r hav hfind
    obtain ⟨hav1, hfind1⟩ := activate_premium_found T db uid 1 none r hav hfind
    obtain ⟨hav2, hfind2⟩ :=
      activate_premium_found (T + 10 * 86400)
        (activate_premium T db uid 1 none).1 uid 1 none _ hav1 hfind1
    refine ⟨?_, by omega⟩
    rw [hfind2]
    simp

/-- C2 witness: the overwrite scenario run on a concrete store. -/
theorem C2_activate_overwrites_witness :
    findUser (activate_premium 0 (⟨true, [(1, {})]⟩ : DB) 1 2 (some "cus_1")).1.users 1 =
      some { is_premium := true, subscription_until := some (2 * 30 * 86400),
             stripe_customer_id := some "cus_1" } ∧
    (findUser (activate_premium (10 * 86400)
          (activate_premium 0 (⟨true, [(1, {})]⟩ : DB) 1 1 none).1 1 1 none).1.users 1).map
        (fun r => r.subscription_until) = some (some (40 * 86400)) := by
  obtain ⟨h1, h2⟩ := C2_activate_overwrites
  constructor
  · have h := h1 0 (⟨true, [(1, {})]⟩ : DB) 1 2 (some "cus_1") {} (by decide) (by decide)
    rw [h]; decide
  · have h := (h2 0 (⟨true, [(1, {})]⟩ : DB) 1 {} (by decide) (by decide)).1
    norm_num at h ⊢
    exact h

/-- C3 counterexample: the Telegram demo button is an entitlement-mutating
input path that bypasses signature verification. Admitting the callback
`activate_premium_demo` for registered user 7 mutates the stored
entitlement, yet the input never passed `verify`. -/
theorem C3_counterexample_demo_bypass :
    entitlementMutated (⟨true, [(7, {})]⟩ : DB)
        (sysStep 0 (⟨true, [(7, {})]⟩ : DB) false
          (SysInput.callback 7 "activate_premium_demo")) = true ∧
    verifiedInput (SysInput.callback 7 "activate_premium_demo") = false := by
  constructor <;> decide

/-- C3 amended: on the webhook path, a payload failing signature
verification is rejected with HTTP 400 and no processing occurs (the store
is untouched); but signature verification is not the sole entitlement
gate — the unauthenticated `activate_premium_demo` callback activates
premium for any registered user. -/
theorem C3_webhook_rejects_unverified :
    (∀ now db q, stripe_webhook now db q WebhookRequest.badSignature = (db, 400)) ∧
    (∀ now db q uid r, db.avail = true → findUser db.users uid = some r →
        verifiedInput (SysInput.callback uid "activate_premium_demo") = false ∧
        findUser (sysStep now db q
            (SysInput.callback uid "activate_premium_demo")).users uid =
          some { r with is_premium := true,
                        subscription_until := some (now + 30 * 1 * 86400) }) := by
  constructor
  · intro now db q; rfl
  · intro now db q uid r hav hfind
    refine ⟨rfl, ?_⟩
    have h := (activate_premium_found now db uid 1 none r hav hfind).2
    simpa [sysStep, premium_callback] using h

/-- C3 amended witness: the amended theorem instantiated on a one-user
store. -/
theorem C3_webhook_rejects_unverified_witness :
    stripe_webhook 0 (⟨true, [(2, {})]⟩ : DB) false WebhookRequest.badSignature =
      ((⟨true, [(2, {})]⟩ : DB), 400) ∧
    findUser (sysStep 0 (⟨true, [(2, {})]⟩ : DB) false
        (SysInput.callback 2 "activate_premium_demo")).users 2 =
      some { is_premium := true, subscription_until := some (0 + 30 * 1 * 86400) } := by
  obtain ⟨h1, h2⟩ := C3_webhook_rejects_unverified
  exact ⟨h1 0 (⟨true, [(2, {})]⟩ : DB) false,
         (h2 0 (⟨true, [(2, {})]⟩ : DB) false 2 {} (by decide) (by decide)).2⟩

/-- C4: the diagnostic computes the ideal nap count by the boundary table
0–3 → 4, 4–6 → 3, 7–12 → 2, 13+ → 1; it reports too many / too few /
on target by comparing the actual count to this ideal; wake count > 3
gives the frequent-wakes message, 1–3 the normal-optimizable message, and
0 the excellent message. For age 6 and 2 naps the ideal is 3, so the
output reports too few naps. -/
theorem C4_diagnostic_recommendation :
    (∀ age : Int,
        (age ≤ 3 → siestes_ideal age = 4) ∧
        (4 ≤ age → age ≤ 6 → siestes_ideal age = 3) ∧
        (7 ≤ age → age ≤ 12 → siestes_ideal age = 2) ∧
        (13 ≤ age → siestes_ideal age = 1)) ∧
    (∀ age s : Int,
        (siestes_ideal age < s →
          napLine s (siestes_ideal age) =
            "\n⚠️ Trop de siestes. Idéal : " ++ toString (siestes_ideal age)) ∧
        (s < siestes_ideal age →
          napLine s (siestes_ideal age) =
            "\n💤 Besoin de plus de repos. Idéal : " ++ toString (siestes_ideal age)) ∧
        (s = siestes_ideal age →
          napLine s (siestes_ideal age) = "\n✅ Nombre de siestes adapté")) ∧
    siestes_ideal 6 = 3 ∧
    napLine 2 (siestes_ideal 6) = "\n💤 Besoin de plus de repos. Idéal : 3" ∧
    (∀ w : Int, 3 < w →
        wakeLine w = "\n\n🌙 Réveils fréquents. Causes possibles :" ++
          "\n• Fenêtre de sommeil inadaptée" ++ "\n• Coucher trop tardif") ∧
    (∀ w : Int, 1 ≤ w → w ≤ 3 →
        wakeLine w = "\n\n🌙 Quelques réveils normaux, optimisables") ∧
    wakeLine 0 = "\n\n✨ Excellent ! Bébé dort bien" := by
  refine ⟨?_, ?_, by decide, by decide, ?_, ?_, by decide⟩
  · intro age
    refine ⟨fun h => ?_, fun h1 h2 => ?_, fun h1 h2 => ?_, fun h => ?_⟩ <;>
      simp only [siestes_ideal] <;> split_ifs <;> omega
  · intro age s
    refine ⟨fun h => ?_, fun h => ?_, fun h => ?_⟩ <;>
      simp only [napLine] <;> split_ifs <;> first | rfl | omega
  · intro w h
    simp only [wakeLine]
    split_ifs <;> first | rfl | omega
  · intro w h1 h2
    simp only [wakeLine]
    split_ifs <;> first | rfl | omega

/-- C4 witness: the boundary table and message selection evaluated at
concrete inputs (ages 3, 6, 12, 13; nap counts around the ideal; wake
counts 5, 2 and 0). -/
theorem C4_diagnostic_recommendation_witness :
    siestes_ideal 3 = 4 ∧ siestes_ideal 4 = 3 ∧ siestes_ideal 12 = 2 ∧
    siestes_ideal 13 = 1 ∧
    napLine 5 (siestes_ideal 6) =
      "\n⚠️ Trop de siestes. Idéal : " ++ toString (siestes_ideal 6) ∧
    napLine 2 (siestes_ideal 6) = "\n💤 Besoin de plus de repos. Idéal : 3" ∧
    napLine 3 (siestes_ideal 6) = "\n✅ Nombre de siestes adapté" ∧
    wakeLine 5 = "\n\n🌙 Réveils fréquents. Causes possibles :" ++
      "\n• Fenêtre de sommeil inadaptée" ++ "\n• Coucher trop tardif" ∧
    wakeLine 2 = "\n\n🌙 Quelques réveils normaux, optimisables" := by
  obtain ⟨ht, hnap, _, htoofew, hfreq, hnorm, _⟩ := C4_diagnostic_recommendation
  exact ⟨(ht 3).1 (by decide), (ht 4).2.1 (by decide) (by decide),
         (ht 12).2.2.1 (by decide) (by decide), (ht 13).2.2.2 (by decide),
         (hnap 6 5).1 (by decide), htoofew,
         (hnap 6 3).2.2 (by decide), hfreq 5 (by decide),
         hnorm 2 (by decide) (by decide)⟩

/-- Requests the webhook rejects: signature failure, an unparsable payload,
or a checkout event whose `client_reference_id` is present and truthy but
not a valid integer (Python `int` raises, and the outer `except` answers
400). Everything else is admitted. -/
def rejectedRequest : WebhookRequest → Bool
  | .badSignature => true
  | .malformedPayload => true
  | .valid (.checkoutSessionCompleted (some s) _) =>
      if s = "" then false else (pyInt s).isNone
  | .valid _ => false

/-- Events whose handler branch issues an inline `cursor.execute(SELECT ...)`
with no inner `try` (source lines 233-263): a storage exception raised
there reaches the outer `except` and produces a 400. -/
def inlineCustomerLookup : WebhookRequest → Bool
  | .valid (.invoicePaymentSucceeded _) => true
  | .valid (.customerSubscriptionDeleted _) => true
  | _ => false

/-- C5 counterexample: a well-formed, correctly signed renewal event during
which the inline customer-lookup query raises (after a successful connect)
is answered with HTTP 400, not 200 — so 400 is not reserved for signature
failure or malformed payload, and a storage failure during event handling
does not always acknowledge receipt. -/
theorem C5_counterexample_storage_error_400 :
    (stripe_webhook 0 (⟨true, []⟩ : DB) true
        (WebhookRequest.valid (StripeEvent.invoicePaymentSucceeded (some "cus_9")))).2 =
      400 ∧
    rejectedRequest (WebhookRequest.valid
        (StripeEvent.invoicePaymentSucceeded (some "cus_9"))) = false := by
  constructor <;> decide

/-- C5 amended: the webhook answers 400 on signature failure, malformed
payload, or a storage exception raised by the inline customer-lookup query
of the renewal/cancellation branches after a successful connect; in every
400 case the store is unmodified. It answers 200 on every other admission
including no-op outcomes, and when the connection itself cannot be
obtained the event is not applied, the state is left unmodified, and
receipt is still acknowledged with 200. -/
theorem C5_webhook_status_contract :
    ∀ now (db : DB) (q : Bool) req,
      ((stripe_webhook now db q req).2 = 400 ↔
        (rejectedRequest req = true ∨
          (inlineCustomerLookup req = true ∧ db.avail = true ∧ q = true))) ∧
      (rejectedRequest req = false →
        ¬(inlineCustomerLookup req = true ∧ db.avail = true ∧ q = true) →
        (stripe_webhook now db q req).2 = 200) ∧
      ((stripe_webhook now db q req).2 = 400 →
        (stripe_webhook now db q req).1 = db) ∧
      (db.avail = false → (stripe_webhook now db q req).1 = db ∧
        (rejectedRequest req = false → (stripe_webhook now db q req).2 = 200)) := by
  intro now db q req
  match req with
  | .badSignature =>
      refine ⟨by simp [stripe_webhook, rejectedRequest, inlineCustomerLookup],
              ?_, fun _ => rfl, fun _ => ⟨rfl, ?_⟩⟩ <;>
        · intro h; simp [rejectedRequest] at h
  | .malformedPayload =>
      refine ⟨by simp [stripe_webhook, rejectedRequest, inlineCustomerLookup],
              ?_, fun _ => rfl, fun _ => ⟨rfl, ?_⟩⟩ <;>
        · intro h; simp [rejectedRequest] at h
  | .valid ev =>
    match ev with
    | .checkoutSessionCompleted clientRef customer =>
        match clientRef with
        | none =>
            refine ⟨?_, ?_, ?_, ?_⟩ <;>
              simp [stripe_webhook, rejectedRequest, inlineCustomerLookup, pyTruthyStr]
        | some s =>
            by_cases hs : s = ""
            · subst hs
              refine ⟨?_, ?_, ?_, ?_⟩ <;>
                simp [stripe_webhook, rejectedRequest, inlineCustomerLookup, pyTruthyStr]
            · cases hp : pyInt s with
              | none =>
                  refine ⟨?_, ?_, ?_, ?_⟩ <;>
                    simp [stripe_webhook, rejectedRequest, inlineCustomerLookup,
                      pyTruthyStr, hs, hp]
              | some uid =>
                  refine ⟨?_, ?_, ?_, ?_⟩ <;>
                    simp [stripe_webhook, rejectedRequest, inlineCustomerLookup,
                      pyTruthyStr, hs, hp]
                  intro hav
                  simp [activate_premium, hav]
    | .invoicePaymentSucceeded customer =>
        by_cases hav : db.avail
        · by_cases hq : q
          · refine ⟨?_, ?_, fun _ => ?_, ?_⟩
            · simp [stripe_webhook, hav, hq, rejectedRequest, inlineCustomerLookup]
            · intro _ hcon; exact absurd ⟨rfl, hav, hq⟩ hcon
            · simp [stripe_webhook, hav, hq]
            · intro h; rw [h] at hav; exact absurd hav (by simp)
          · simp only [Bool.not_eq_true] at hq
            rcases customer with _ | cid
            · refine ⟨?_, ?_, ?_, ?_⟩ <;>
                simp [stripe_webhook, hav, hq, rejectedRequest, inlineCustomerLookup]
            · cases hf : findUserByCustomerId db.users cid with
              | none =>
                  refine ⟨?_, ?_, ?_, ?_⟩ <;>
                    simp [stripe_webhook, hav, hq, hf, rejectedRequest,
                      inlineCustomerLookup]
              | some uid =>
                  refine ⟨?_, ?_, ?_, ?_⟩ <;>
                    simp [stripe_webhook, hav, hq, hf, rejectedRequest,
                      inlineCustomerLookup]
        · simp only [Bool.not_eq_true] at hav
          refine ⟨?_, ?_, ?_, ?_⟩ <;>
            simp [stripe_webhook, hav, rejectedRequest, inlineCustomerLookup]
    | .customerSubscriptionDeleted customer =>
        by_cases hav : db.avail
        · by_cases hq : q
          · refine ⟨?_, ?_, fun _ => ?_, ?_⟩
            · simp [stripe_webhook, hav, hq, rejectedRequest, inlineCustomerLookup]
            · intro _ hcon; exact absurd ⟨rfl, hav, hq⟩ hcon
            · simp [stripe_webhook, hav, hq]
            · intro h; rw [h] at hav; exact absurd hav (by simp)
          · simp only [Bool.not_eq_true] at hq
            rcases customer with _ | cid
            · refine ⟨?_, ?_, ?_, ?_⟩ <;>
                simp [stripe_webhook, hav, hq, rejectedRequest, inlineCustomerLookup]
            · cases hf : findUserByCustomerId db.users cid with
              | none =>
                  refine ⟨?_, ?_, ?_, ?_⟩ <;>
                    simp [stripe_webhook, hav, hq, hf, rejectedRequest,
                      inlineCustomerLookup]
              | some uid =>
                  refine ⟨?_, ?_, ?_, ?_⟩ <;>
                    simp [stripe_webhook, hav, hq, hf, rejectedRequest,
                      inlineCustomerLookup]
        · simp only [Bool.not_eq_true] at hav
          refine ⟨?_, ?_, ?_, ?_⟩ <;>
            simp [stripe_webhook, hav, rejectedRequest, inlineCustomerLookup]
    | .otherEvent kind =>
        refine ⟨by simp [stripe_webhook, rejectedRequest, inlineCustomerLookup],
                fun _ _ => by simp [stripe_webhook],
                ?_, fun _ => ⟨rfl, fun _ => by simp [stripe_webhook]⟩⟩
        intro h; simp [stripe_webhook] at h

/-- C5 amended witness: a mid-query storage failure on a renewal leaves the
store unchanged (while answering 400); an unreachable store on the same
event is a 200 no-op; and an unknown event kind is admitted with 200. -/
theorem C5_webhook_status_contract_witness :
    (stripe_webhook 0 (⟨true, [(1, {})]⟩ : DB) true
        (WebhookRequest.valid (StripeEvent.invoicePaymentSucceeded (some "cus_9")))).1 =
      (⟨true, [(1, {})]⟩ : DB) ∧
    (stripe_webhook 0 (⟨false, []⟩ : DB) false
        (WebhookRequest.valid (StripeEvent.invoicePaymentSucceeded (some "cus_9")))).1 =
      (⟨false, []⟩ : DB) ∧
    (stripe_webhook 0 (⟨false, []⟩ : DB) false
        (WebhookRequest.valid (StripeEvent.invoicePaymentSucceeded (some "cus_9")))).2 =
      200 ∧
    (stripe_webhook 0 (⟨true, []⟩ : DB) false
        (WebhookRequest.valid (StripeEvent.otherEvent "payment_intent.created"))).2 =
      200 := by
  refine ⟨(C5_webhook_status_contract 0 (⟨true, [(1, {})]⟩ : DB) true
            (WebhookRequest.valid
              (StripeEvent.invoicePaymentSucceeded (some "cus_9")))).2.2.1 (by decide),
          ((C5_webhook_status_contract 0 (⟨false, []⟩ : DB) false
            (WebhookRequest.valid
              (StripeEvent.invoicePaymentSucceeded (some "cus_9")))).2.2.2
            (by decide)).1,
          ((C5_webhook_status_contract 0 (⟨false, []⟩ : DB) false
            (WebhookRequest.valid
              (StripeEvent.invoicePaymentSucceeded (some "cus_9")))).2.2.2
            (by decide)).2 (by decide),
          (C5_webhook_status_contract 0 (⟨true, []⟩ : DB) false
            (WebhookRequest.valid
              (StripeEvent.otherEvent "payment_intent.created"))).2.1
            (by decide) (by decide)⟩

/-- C6: `deactivate_premium` clears `is_premium` for the targeted record and
leaves every other field (including `subscription_until` and
`stripe_customer_id`) and every other record unchanged; it is idempotent,
and a deactivated user is still resolvable by customer reference. -/
theorem C6_deactivate_frame :
    ∀ db uid,
      (db.avail = true →
        findUser (deactivate_premium db uid).1.users uid =
          (findUser db.users uid).map (fun r => { r with is_premium := false })) ∧
      (∀ uid', uid' ≠ uid →
        findUser (deactivate_premium db uid).1.users uid' = findUser db.users uid') ∧
      (∀ cid, findUserByCustomerId (deactivate_premium db uid).1.users cid =
        findUserByCustomerId db.users cid) ∧
      deactivate_premium (deactivate_premium db uid).1 uid =
        deactivate_premium db uid := by
  intro db uid
  by_cases hav : db.avail
  · refine ⟨fun _ => ?_, fun uid' h => ?_, fun cid => ?_, ?_⟩
    · simp [deactivate_premium, hav, findUser_updateUser_self]
    · simp [deactivate_premium, hav, findUser_updateUser_ne _ _ _ _ h]
    · simp [deactivate_premium, hav]
      exact findUserByCustomerId_updateUser _ _ _ _ (fun r => rfl)
    · simp [deactivate_premium, hav, updateUser_comp]
  · simp at hav
    refine ⟨fun h => by rw [h] at hav; exact absurd hav (by decide),
            fun uid' h => ?_, fun cid => ?_, ?_⟩ <;>
      simp [deactivate_premium, hav]

/-- C6 witness: deactivating a premium user with a stored customer
reference clears only the flag, keeps the reference resolvable, and a
second deactivation changes nothing. -/
theorem C6_deactivate_frame_witness :
    findUser (deactivate_premium
        (⟨true, [(1, { is_premium := true, subscription_until := some 99,
                       stripe_customer_id := some "cus_7" })]⟩ : DB) 1).1.users 1 =
      some { is_premium := false, subscription_until := some 99,
             stripe_customer_id := some "cus_7" } ∧
    findUserByCustomerId (deactivate_premium
        (⟨true, [(1, { is_premium := true, subscription_until := some 99,
                       stripe_customer_id := some "cus_7" })]⟩ : DB) 1).1.users
      "cus_7" = some 1 ∧
    deactivate_premium (deactivate_premium
        (⟨true, [(1, { is_premium := true, subscription_until := some 99,
                       stripe_customer_id := some "cus_7" })]⟩ : DB) 1).1 1 =
      deactivate_premium
        (⟨true, [(1, { is_premium := true, subscription_until := some 99,
                       stripe_customer_id := some "cus_7" })]⟩ : DB) 1 := by
  obtain ⟨h1, _, h3, h4⟩ := C6_deactivate_frame
    (⟨true, [(1, { is_premium := true, subscription_until := some 99,
                   stripe_customer_id := some "cus_7" })]⟩ : DB) 1
  refine ⟨?_, ?_, h4⟩
  · rw [h1 (by decide)]; decide
  · rw [h3 "cus_7"]; decide

/-- C7: a reply failing integer validation in the age, nap-count or
wake-count stage leaves the database, the stage and the collected fields
unchanged and only re-prompts; the bedtime stage accepts any text; and the
`/cancel` fallback destroys the session from any stage with no
recommendation emitted. -/
theorem C7_conversation_validation :
    ∀ now db uid cs s,
      convStep now db uid cs ConvMsg.cancelCmd = (db, none, ConvReply.cancelledNotice) ∧
      (cs.stage = Stage.AGE → pyInt s = none →
        convStep now db uid cs (ConvMsg.text s) = (db, some cs, ConvReply.invalidNumber)) ∧
      (cs.stage = Stage.SIESTES → pyInt s = none →
        convStep now db uid cs (ConvMsg.text s) = (db, some cs, ConvReply.invalidNumber)) ∧
      (cs.stage = Stage.REVEILS → pyInt s = none →
        convStep now db uid cs (ConvMsg.text s) = (db, some cs, ConvReply.invalidNumber)) ∧
      (cs.stage = Stage.COUCHER →
        convStep now db uid cs (ConvMsg.text s) =
          (db, some ⟨Stage.REVEILS, { cs.dat with diagnostic_coucher := some s }⟩,
           ConvReply.askWakes)) := by
  intro now db uid cs s
  obtain ⟨stage, dat⟩ := cs
  refine ⟨rfl, ?_, ?_, ?_, ?_⟩ <;> intro hst <;> subst hst <;>
    first
      | (intro hp; simp [convStep, hp])
      | simp [convStep]

/-- C7 witness: from each integer stage the non-integer reply "abc"
re-prompts in place, the bedtime stage accepts the free text "19h30", and
`/cancel` destroys a mid-flight session without a recommendation. -/
theorem C7_conversation_validation_witness :
    convStep 0 (⟨true, []⟩ : DB) 1
        ⟨Stage.COUCHER, ⟨some 6, some 2, none⟩⟩ ConvMsg.cancelCmd =
      ((⟨true, []⟩ : DB), none, ConvReply.cancelledNotice) ∧
    convStep 0 (⟨true, []⟩ : DB) 1 ⟨Stage.AGE, ⟨none, none, none⟩⟩
        (ConvMsg.text "abc") =
      ((⟨true, []⟩ : DB), some ⟨Stage.AGE, ⟨none, none, none⟩⟩,
        ConvReply.invalidNumber) ∧
    convStep 0 (⟨true, []⟩ : DB) 1 ⟨Stage.SIESTES, ⟨some 6, none, none⟩⟩
        (ConvMsg.text "abc") =
      ((⟨true, []⟩ : DB), some ⟨Stage.SIESTES, ⟨some 6, none, none⟩⟩,
        ConvReply.invalidNumber) ∧
    convStep 0 (⟨true, []⟩ : DB) 1
        ⟨Stage.REVEILS, ⟨some 6, some 2, some "19h30"⟩⟩ (ConvMsg.text "abc") =
      ((⟨true, []⟩ : DB), some ⟨Stage.REVEILS, ⟨some 6, some 2, some "19h30"⟩⟩,
        ConvReply.invalidNumber) ∧
    convStep 0 (⟨true, []⟩ : DB) 1 ⟨Stage.COUCHER, ⟨some 6, some 2, none⟩⟩
        (ConvMsg.text "19h30") =
      ((⟨true, []⟩ : DB), some ⟨Stage.REVEILS, ⟨some 6, some 2, some "19h30"⟩⟩,
        ConvReply.askWakes) := by
  refine ⟨(C7_conversation_validation 0 (⟨true, []⟩ : DB) 1
            ⟨Stage.COUCHER, ⟨some 6, some 2, none⟩⟩ "").1,
          (C7_conversation_validation 0 (⟨true, []⟩ : DB) 1
            ⟨Stage.AGE, ⟨none, none, none⟩⟩ "abc").2.1 rfl (by decide),
          (C7_conversation_validation 0 (⟨true, []⟩ : DB) 1
            ⟨Stage.SIESTES, ⟨some 6, none, none⟩⟩ "abc").2.2.1 rfl (by decide),
          (C7_conversation_validation 0 (⟨true, []⟩ : DB) 1
            ⟨Stage.REVEILS, ⟨some 6, some 2, some "19h30"⟩⟩ "abc").2.2.2.1 rfl
            (by decide),
          (C7_conversation_validation 0 (⟨true, []⟩ : DB) 1
            ⟨Stage.COUCHER, ⟨some 6, some 2, none⟩⟩ "19h30").2.2.2.2 rfl⟩

/-- C8 counterexample: producing the recommendation is not free of store
side effects. Completing the diagnostic for a user whose premium has
lapsed (flag set, `subscription_until = 5`, evaluated at time 10) runs the
lazy-expiry write inside `is_premium` and changes the stored state. -/
theorem C8_counterexample_lazy_expiry_write :
    (convStep 10
        (⟨true, [(1, { is_premium := true, subscription_until := some 5 })]⟩ : DB) 1
        ⟨Stage.REVEILS, ⟨some 6, some 2, some "19h30"⟩⟩ (ConvMsg.text "1")).1 ≠
      (⟨true, [(1, { is_premium := true, subscription_until := some 5 })]⟩ : DB) := by
  decide

/-- C8 amended: the recommendation text is a deterministic function of the
four collected fields and of the single premium bit `is_premium` returns —
two evaluations agreeing on those produce identical output — and the only
store effect of computing it is the lazy-expiry write inside `is_premium`:
whenever the invoking user's record is not an expired premium record, the
store is left unchanged. -/
theorem C8_recommendation_purity :
    (∀ now (db db' : DB) (uid uid' age siestes : Int) (coucher s : String),
        (is_premium now db uid).2 = (is_premium now db' uid').2 →
        (convStep now db uid
            ⟨Stage.REVEILS, ⟨some age, some siestes, some coucher⟩⟩
            (ConvMsg.text s)).2.2 =
          (convStep now db' uid'
            ⟨Stage.REVEILS, ⟨some age, some siestes, some coucher⟩⟩
            (ConvMsg.text s)).2.2) ∧
    (∀ now (db : DB) (uid age siestes : Int) (coucher s : String),
        expiredPremium now db uid = false →
        (convStep now db uid
            ⟨Stage.REVEILS, ⟨some age, some siestes, some coucher⟩⟩
            (ConvMsg.text s)).1 = db) := by
  constructor
  · intro now db db' uid uid' age siestes coucher s h
    cases hp : pyInt s with
    | none => simp [convStep, hp]
    | some reveils => simp [convStep, hp, h]
  · intro now db uid age siestes coucher s h
    cases hp : pyInt s with
    | none => simp [convStep, hp]
    | some reveils =>
        simp [convStep, hp, is_premium_fst, h]

/-- C8 amended witness: two different stores on which the user is
non-premium yield the identical recommendation text, and completing the
diagnostic on an unexpired store leaves it unchanged. -/
theorem C8_recommendation_purity_witness :
    (convStep 0 (⟨true, []⟩ : DB) 1
        ⟨Stage.REVEILS, ⟨some 6, some 2, some "19h30"⟩⟩ (ConvMsg.text "1")).2.2 =
      (convStep 0 (⟨true, [(2, {})]⟩ : DB) 2
        ⟨Stage.REVEILS, ⟨some 6, some 2, some "19h30"⟩⟩ (ConvMsg.text "1")).2.2 ∧
    (convStep 0 (⟨true, [(2, {})]⟩ : DB) 2
        ⟨Stage.REVEILS, ⟨some 6, some 2, some "19h30"⟩⟩ (ConvMsg.text "1")).1 =
      (⟨true, [(2, {})]⟩ : DB) := by
  obtain ⟨h1, h2⟩ := C8_recommendation_purity
  exact ⟨h1 0 (⟨true, []⟩ : DB) (⟨true, [(2, {})]⟩ : DB) 1 2 6 2 "19h30" "1"
           (by decide),
         h2 0 (⟨true, [(2, {})]⟩ : DB) 2 6 2 "19h30" "1" (by decide)⟩

/-- C9 counterexample: upserting an unregistered user issues two separate
storage commands — a `SELECT` probe then an `INSERT` — not one conditional
upsert. -/
theorem C9_counterexample_two_commands :
    create_or_update_user_trace (⟨true, []⟩ : DB) 5 none none =
      [SqlCmd.selectUserById 5, SqlCmd.insertUser 5 none none] ∧
    (create_or_update_user_trace (⟨true, []⟩ : DB) 5 none none).length ≠ 1 := by
  constructor <;> decide

/-- C9 amended: `create_or_update_user` is implemented as separate
read-then-write steps — whenever the store is reachable its trace is a
`SELECT` probe followed by one write command — and the two phases can race
with themselves: with both existence probes for an unregistered `user_id`
ordered before both writes, the first write inserts and succeeds while the
second hits the primary-key constraint and fails, applying nothing. -/
theorem C9_upsert_read_then_write :
    (∀ (db : DB) uid u f, db.avail = true →
        ∃ w, create_or_update_user_trace db uid u f =
            [SqlCmd.selectUserById uid, w] ∧ isReadCmd w = false) ∧
    (∀ now (db : DB) uid uA fA uB fB, db.avail = true →
        findUser db.users uid = none →
        (upsert_write now db uid uA fA (upsert_read db uid)).2 = true ∧
        (upsert_write now (upsert_write now db uid uA fA (upsert_read db uid)).1
            uid uB fB (upsert_read db uid)).2 = false ∧
        (upsert_write now (upsert_write now db uid uA fA (upsert_read db uid)).1
            uid uB fB (upsert_read db uid)).1 =
          (upsert_write now db uid uA fA (upsert_read db uid)).1) := by
  constructor
  · intro db uid u f hav
    cases hfind : findUser db.users uid with
    | none =>
        exact ⟨SqlCmd.insertUser uid u f,
          by simp [create_or_update_user_trace, hav, hfind], rfl⟩
    | some r =>
        exact ⟨SqlCmd.updateLastActivity uid,
          by simp [create_or_update_user_trace, hav, hfind], rfl⟩
  · intro now db uid uA fA uB fB hav hfind
    have hread : upsert_read db uid = false := by simp [upsert_read, hfind]
    rw [hread]
    have hA : upsert_write now db uid uA fA false =
        ({ db with users := db.users ++
            [(uid, { username := uA, first_name := fA, is_premium := false,
                     subscription_until := none, stripe_customer_id := none,
                     created_at := now, last_activity := now })] }, true) := by
      simp [upsert_write, hav, hfind]
    rw [hA]
    have hfound := findUser_append_self db.users uid
      { username := uA, first_name := fA, is_premium := false,
        subscription_until := none, stripe_customer_id := none,
        created_at := now, last_activity := now } hfind
    simp [upsert_write, hav, hfound]

/-- C9 amended witness: the trace shape and the interleaved double-upsert
race evaluated for an unregistered user on an empty, reachable store. -/
theorem C9_upsert_read_then_write_witness :
    (∃ w, create_or_update_user_trace (⟨true, []⟩ : DB) 5 none none =
        [SqlCmd.selectUserById 5, w] ∧ isReadCmd w = false) ∧
    (upsert_write 0 (⟨true, []⟩ : DB) 5 (some "a") none
        (upsert_read (⟨true, []⟩ : DB) 5)).2 = true ∧
    (upsert_write 0 (upsert_write 0 (⟨true, []⟩ : DB) 5 (some "a") none
          (upsert_read (⟨true, []⟩ : DB) 5)).1 5 (some "b") none
        (upsert_read (⟨true, []⟩ : DB) 5)).2 = false := by
  obtain ⟨h1, h2⟩ := C9_upsert_read_then_write
  refine ⟨h1 (⟨true, []⟩ : DB) 5 none none (by decide), ?_, ?_⟩
  · exact (h2 0 (⟨true, []⟩ : DB) 5 (some "a") none (some "b") none
      (by decide) (by decide)).1
  · exact (h2 0 (⟨true, []⟩ : DB) 5 (some "a") none (some "b") none
      (by decide) (by decide)).2.1

/-- C10: activating or deactivating an unregistered `user_id` reports
success while creating no record and leaving the store unchanged; a
checkout event for such a user is acknowledged with 200 yet grants
nothing, and `is_premium` stays false for that user. -/
theorem C10_unknown_user_noop :
    ∀ now t (db : DB) uid months cid s (q : Bool),
      db.avail = true → findUser db.users uid = none →
      activate_premium now db uid months cid = (db, true) ∧
      deactivate_premium db uid = (db, true) ∧
      (pyInt s = some uid → s ≠ "" →
        stripe_webhook now db q
          (WebhookRequest.valid (StripeEvent.checkoutSessionCompleted (some s) cid)) =
          (db, 200)) ∧
      (is_premium t db uid).2 = false := by
  intro now t db uid months cid s q hav hfind
  obtain ⟨av, us⟩ := db
  simp only [DB.avail] at hav
  subst hav
  simp only [DB.users] at hfind
  have hact : ∀ m, activate_premium now (⟨true, us⟩ : DB) uid m cid =
      ((⟨true, us⟩ : DB), true) := by
    intro m
    by_cases hc : pyTruthyStr cid <;>
      simp [activate_premium, hc, updateUser_not_found _ _ _ hfind]
  refine ⟨hact months, ?_, ?_, ?_⟩
  · simp [deactivate_premium, updateUser_not_found _ _ _ hfind]
  · intro hp hs
    simp [stripe_webhook, pyTruthyStr, hs, hp, hact 1]
  · simp [is_premium, get_user_data, hfind]

/-- C10 witness: a checkout event referencing the never-registered user 3
on an empty reachable store is acknowledged, changes nothing, and leaves
the user non-premium. -/
theorem C10_unknown_user_noop_witness :
    activate_premium 0 (⟨true, []⟩ : DB) 3 1 (some "cus_3") =
      ((⟨true, []⟩ : DB), true) ∧
    deactivate_premium (⟨true, []⟩ : DB) 3 = ((⟨true, []⟩ : DB), true) ∧
    stripe_webhook 0 (⟨true, []⟩ : DB) true
        (WebhookRequest.valid
          (StripeEvent.checkoutSessionCompleted (some "3") (some "cus_3"))) =
      ((⟨true, []⟩ : DB), 200) ∧
    (is_premium 99 (⟨true, []⟩ : DB) 3).2 = false := by
  obtain ⟨h1, h2, h3, h4⟩ :=
    C10_unknown_user_noop 0 99 (⟨true, []⟩ : DB) 3 1 (some "cus_3") "3" true
      (by decide) (by decide)
  exact ⟨h1, h2, h3 (by decide) (by decide), h4⟩

end CoachSommeil
